import Mathlib

/-!
Verification of the PixalPedia backend's session/authentication subsystem.

JavaScript strings are modelled as their byte sequences (`List Nat`, each
element < 256 where it matters); all string literals relevant to the claims
are ASCII, for which the byte sequence coincides with the code-point
sequence.  `Buffer.from(s).toString("base64")` is modelled by an explicit
base64 codec over byte lists; `Buffer.from(s, "base64")` is modelled by the
forgiving decoder that skips characters outside the base64 alphabet, as
Node does.
-/

set_option maxHeartbeats 1000000
set_option maxRecDepth 8192
set_option exponentiation.threshold 400

/-- Byte sequence of an ASCII string literal (code points = bytes). -/
def ascii (s : String) : List Nat :=
  s.data.map Char.toNat

/-- JS `String.prototype.toLowerCase` restricted to ASCII bytes. -/
def lowerByte (b : Nat) : Nat :=
  if 65 ≤ b ∧ b ≤ 90 then b + 32 else b

/-- Lowercase an ASCII byte string. -/
def toLowerBytes (s : List Nat) : List Nat :=
  s.map lowerByte

/-- JS truthiness of an optional string header: present and non-empty. -/
def truthy (o : Option (List Nat)) : Bool :=
  match o with
  | some v => !v.isEmpty
  | none => false

/-- JS `a || b` on optional header / query values ("" is falsy). -/
def jsOr (a b : Option (List Nat)) : Option (List Nat) :=
  if truthy a then a else b

/-- Header is present, non-empty, and lowercases to the given ASCII word
(JS `h && h.toString().toLowerCase() === w`). -/
def truthyLower (o : Option (List Nat)) (w : String) : Bool :=
  match o with
  | some v => !v.isEmpty && (toLowerBytes v == ascii w)
  | none => false

/-- The base64 alphabet: 6-bit value to ASCII code. -/
def b64chr (v : Nat) : Nat :=
  if v < 26 then 65 + v
  else if v < 52 then 97 + (v - 26)
  else if v < 62 then 48 + (v - 52)
  else if v = 62 then 43
  else 47

/-- ASCII code to 6-bit value; `none` for characters outside the alphabet
(Node's base64 decoder skips those, including the padding `=`). -/
def b64val (b : Nat) : Option Nat :=
  if 65 ≤ b ∧ b ≤ 90 then some (b - 65)
  else if 97 ≤ b ∧ b ≤ 122 then some (b - 97 + 26)
  else if 48 ≤ b ∧ b ≤ 57 then some (b - 48 + 52)
  else if b = 43 then some 62
  else if b = 47 then some 63
  else none

/-- Standard base64 encoding of a byte list, with `=` (ASCII 61) padding,
as produced by `Buffer.from(s).toString("base64")`. -/
def b64encode : List Nat → List Nat
  | b1 :: b2 :: b3 :: rest =>
      b64chr (b1 / 4) :: b64chr ((b1 % 4) * 16 + b2 / 16) ::
      b64chr ((b2 % 16) * 4 + b3 / 64) :: b64chr (b3 % 64) :: b64encode rest
  | [b1, b2] => [b64chr (b1 / 4), b64chr ((b1 % 4) * 16 + b2 / 16), b64chr ((b2 % 16) * 4), 61]
  | [b1] => [b64chr (b1 / 4), b64chr ((b1 % 4) * 16), 61, 61]
  | [] => []

/-- Reassemble bytes from a stream of 6-bit values, 4 at a time; a trailing
group of 3/2 values yields 2/1 bytes and a lone trailing value is dropped,
as in Node's decoder. -/
def b64decodeCore : List Nat → List Nat
  | v1 :: v2 :: v3 :: v4 :: rest =>
      (v1 * 4 + v2 / 16) :: ((v2 % 16) * 16 + v3 / 4) :: ((v3 % 4) * 64 + v4) :: b64decodeCore rest
  | [v1, v2, v3] => [v1 * 4 + v2 / 16, (v2 % 16) * 16 + v3 / 4]
  | [v1, v2] => [v1 * 4 + v2 / 16]
  | _ => []

/-- `Buffer.from(s, "base64")`: skip non-alphabet characters, then
reassemble bytes. -/
def b64decode (s : List Nat) : List Nat :=
  b64decodeCore (s.filterMap b64val)

/-- Hex digit (lowercase) of a 4-bit value, as ASCII code. -/
def hexChr (v : Nat) : Nat :=
  if v < 10 then 48 + v else 87 + v

/-- `Buffer.toString("hex")`: two hex characters per byte. -/
def bytesToHex : List Nat → List Nat
  | [] => []
  | b :: rest => hexChr (b / 16) :: hexChr (b % 16) :: bytesToHex rest

/-- `generatePublicAuthToken` (src/utils/generateAuthToken.js): split the
secret at `floor(len/2)`, base64-encode `secretFirst + userId +
secretSecond`, and wrap it in a 20-hex-char random prefix (10 bytes `pb`)
and a 16-hex-char random suffix (8 bytes `sb`).  The random bytes are
passed explicitly in place of `crypto.randomBytes`. -/
def generatePublicAuthToken (secret userId pb sb : List Nat) :
    Except String (List Nat) :=
  if secret.isEmpty then
    .error "USER_TOKEN_SECRET is not set in environment variables"
  else
    let splitIndex := secret.length / 2
    let merged := secret.take splitIndex ++ userId ++ secret.drop splitIndex
    .ok (bytesToHex pb ++ b64encode merged ++ bytesToHex sb)

/-- `extractUserIdFromAuthToken` (src/Middleware/Middleware.js lines 4-34):
length check, strip the 20-char head and 16-char tail, base64-decode,
check the secret affixes, and return the middle segment.  (JS
`String.prototype.substring` swaps its arguments when end < start; that
corner — overlapping secret affixes inside a shorter decoded payload — is
not exercised by any theorem below, and truncating `take`/`drop` are used
instead.) -/
def extractUserIdFromAuthToken (secret authToken : List Nat) :
    Except String (List Nat) :=
  if authToken.length ≤ 20 + 16 then .error "Invalid token length"
  else
    let encodedMerged := (authToken.drop 20).take (authToken.length - 36)
    let merged := b64decode encodedMerged
    if secret.isEmpty then
      .error "USER_TOKEN_SECRET is not set in environment variables"
    else
      let splitIndex := secret.length / 2
      let secretFirst := secret.take splitIndex
      let secretSecond := secret.drop splitIndex
      if secretFirst.isPrefixOf merged && secretSecond.isSuffixOf merged then
        .ok ((merged.drop secretFirst.length).take
              (merged.length - secretSecond.length - secretFirst.length))
      else .error "Invalid token format"

/-- `verifyAuthToken` (src/routes/auth.js lines 9-42): strip affixes,
base64-decode, and compare against `secretFirst + userId + secretSecond`
for exact equality. -/
def verifyAuthToken (secret authToken userId : List Nat) : Bool :=
  if secret.isEmpty then false
  else if authToken.length ≤ 20 + 16 then false
  else
    let encodedMerged := (authToken.drop 20).take (authToken.length - 36)
    let merged := b64decode encodedMerged
    let splitIndex := secret.length / 2
    merged == secret.take splitIndex ++ userId ++ secret.drop splitIndex

/-- One row of the `manage_logins` table (fields the core consumes;
`device_info`, `method`, `ip_address` and `created_at` carry no logic and
are omitted). -/
structure LoginRow where
  user_id : List Nat
  session_id : List Nat
  auth_token : List Nat
  expires_at : Int
  is_logged_in : Bool
deriving DecidableEq, Repr

/-- Per-login data minted by a login operation (session id, auth token and
expiry timestamp). -/
structure LoginEvent where
  session_id : List Nat
  auth_token : List Nat
  expires_at : Int
deriving DecidableEq, Repr

/-- The `manage_logins` row inserted by a login (src/auth/publicAuth.js
lines 385-397): `is_logged_in = true`. -/
def newLoginRow (uid : List Nat) (e : LoginEvent) : LoginRow :=
  { user_id := uid, session_id := e.session_id, auth_token := e.auth_token,
    expires_at := e.expires_at, is_logged_in := true }

/-- One completed login for `uid` (src/auth/publicAuth.js lines 367-401,
same pattern in the github callback src/unnamed/part_000 lines 125-149):
first `UPDATE manage_logins SET is_logged_in = false WHERE user_id = uid`,
then insert the new active row. -/
def loginStep (uid : List Nat) (t : List LoginRow) (e : LoginEvent) :
    List LoginRow :=
  (t.map fun r =>
    if r.user_id == uid then { r with is_logged_in := false } else r)
  ++ [newLoginRow uid e]

/-- A sequence of completed, non-interleaved logins for `uid`. -/
def runLogins (uid : List Nat) (t0 : List LoginRow) (es : List LoginEvent) :
    List LoginRow :=
  es.foldl (loginStep uid) t0

/-- Row filter `user_id = uid AND is_logged_in = true`. -/
def activeFor (uid : List Nat) (r : LoginRow) : Bool :=
  r.user_id == uid && r.is_logged_in

/-- `POST /logout/:user_id` (src/unnamed/part_000 lines 263-300): select
the active rows of the user; if none, answer 400 without touching the
table; otherwise set `is_logged_in = false` on exactly those rows
(`WHERE user_id = u AND is_logged_in = true`) and answer 200. -/
def logoutHandler (u : List Nat) (t : List LoginRow) :
    (Nat × String) × List LoginRow :=
  let active := t.filter (activeFor u)
  if active.isEmpty then
    ((400, "No active session found for this user."), t)
  else
    ((200, "Logged out successfully."),
      t.map fun r =>
        if r.user_id == u && r.is_logged_in then
          { r with is_logged_in := false }
        else r)

/-- One row of the `sessions` table (fields the core consumes; the
device-fingerprint columns carry no logic and are omitted). -/
structure SessionRow where
  session_id : List Nat
  session_token : List Nat
  generated_at : Int
  last_access : Int
deriving DecidableEq, Repr

/-- Supabase `.single()`: a result row only when the filter matched
exactly one row. -/
def singleQ {α : Type} (l : List α) : Option α :=
  match l with
  | [r] => some r
  | _ => none

/-- The login-registry lookup of the request validator
(src/routes/auth.js lines 93-99): `WHERE user_id = uid AND auth_token =
tok AND is_logged_in = true`, with no condition on `expires_at`. -/
def lookupActiveLogin (logins : List LoginRow) (uid tok : List Nat) :
    Option LoginRow :=
  singleQ (logins.filter fun r =>
    r.user_id == uid && r.auth_token == tok && r.is_logged_in)

/-- The session-registry lookup (src/routes/auth.js lines 116-121):
`WHERE session_id = sid AND session_token = stok`. -/
def lookupSession (sessions : List SessionRow) (sid stok : List Nat) :
    Option SessionRow :=
  singleQ (sessions.filter fun s =>
    s.session_id == sid && s.session_token == stok)

/-- `GET /vailed` (src/routes/auth.js lines 55-136), the database-backed
request validator: check the user id header, extract the Bearer auth token
and the session token, verify the token, look up the active login row
(no expiry filter), check `now > expires_at` separately, then look up the
session row.  The handler issues no writes, so the stores are returned
unchanged alongside the response. -/
def vailedHandler (secret : List Nat)
    (xUserId authHeader sessionToken : Option (List Nat))
    (logins : List LoginRow) (sessions : List SessionRow) (now : Int) :
    (Nat × String) × (List LoginRow × List SessionRow) :=
  let stores := (logins, sessions)
  if !truthy xUserId then ((401, "User ID missing."), stores)
  else
    let uid := xUserId.getD []
    let authToken : Option (List Nat) :=
      match authHeader with
      | some h => if (ascii "Bearer ").isPrefixOf h then some (h.drop 7) else none
      | none => none
    if !truthy authToken || !truthy sessionToken then
      ((401, "Authentication tokens missing."), stores)
    else
      let tok := authToken.getD []
      let stok := sessionToken.getD []
      if !verifyAuthToken secret tok uid then
        ((401, "Invalid authentication token."), stores)
      else
        match lookupActiveLogin logins uid tok with
        | none => ((401, "Login session not found or inactive."), stores)
        | some loginData =>
          if now > loginData.expires_at then
            ((401, "Authentication token expired."), stores)
          else
            match lookupSession sessions loginData.session_id stok with
            | none => ((401, "Invalid session record."), stores)
            | some _ => ((200, "Session is valid."), stores)

/-- The `sessions` insert performed at login (src/auth/publicAuth.js lines
403-417): `generated_at` and `last_access` are both set to the login
timestamp. -/
def recordSessionInsert (sessions : List SessionRow)
    (sid stok : List Nat) (generatedAt : Int) : List SessionRow :=
  sessions ++ [{ session_id := sid, session_token := stok,
                 generated_at := generatedAt, last_access := generatedAt }]

/-- A JS number as produced by `JSON.parse` or `ToNumber`: a finite value
or an infinity (IEEE-754 overflow, which both produce).  A finite value is
held exactly as the decimal `m * 10 ^ e` its literal denotes; the rounding
of a finite double is not modelled — it can change the gate's 20-second
comparison only for inputs within one double ULP of the boundary. -/
inductive JNum where
  | fin (m e : Int)
  | posInf
  | negInf
deriving DecidableEq, Repr

/-- A JSON value as produced by `JSON.parse`: null, booleans, numbers,
strings, arrays and objects. -/
inductive JVal where
  | jnull
  | jbool (b : Bool)
  | jnum (n : JNum)
  | jstr (s : List Nat)
  | jarr (elems : List JVal)
  | jobj (fields : List (List Nat × JVal))

/-- Skip JSON token whitespace (space, tab, LF, CR — the four characters
`JSON.parse` allows between tokens). -/
def skipWs : List Nat → List Nat
  | b :: rest =>
    if b = 32 ∨ b = 9 ∨ b = 10 ∨ b = 13 then skipWs rest else b :: rest
  | [] => []

/-- Longest run of leading decimal digits, and the remainder. -/
def takeDigits : List Nat → List Nat × List Nat
  | b :: rest =>
    if 48 ≤ b ∧ b ≤ 57 then
      let p := takeDigits rest
      (b :: p.1, p.2)
    else ([], b :: rest)
  | [] => ([], [])

/-- Numeric value of a digit run. -/
def digitsToNat (ds : List Nat) : Nat :=
  ds.foldl (fun a b => a * 10 + (b - 48)) 0

/-- Smallest magnitude that IEEE-754 round-to-nearest sends to infinity
(the numeral is `2^1024 - 2^971`, spelt out so that it evaluates); both
`JSON.parse` and `Number` overflow there. -/
def overflowBound : Int := 179769313486231570814527423731704356798070567525844996598917476803157260780028538760589558632766878171540458953514382464234321326889464182768467546703537516986049910576551282076245490090389328944075868508455133942304583236903222948165808559332123348274797826204144723168738177180919299881250404026184124858368

/-- `10 ^ n` as an integer. -/
def pow10 (n : Nat) : Int := ((10 ^ n : Nat) : Int)

/-- Whether `m * 10 ^ e ≥ c`, decided by clearing the power of ten
(multiplying both sides by `10 ^ (-e)` when `e` is negative). -/
def decGE (m e c : Int) : Bool :=
  if 0 ≤ e then decide (c ≤ m * pow10 e.toNat)
  else decide (c * pow10 (-e).toNat ≤ m)

/-- The finite decimal `m * 10 ^ e`, or the infinity a double computation
produces once the magnitude reaches the overflow bound. -/
def clampToDouble (m e : Int) : JNum :=
  if decGE m e overflowBound then .posInf
  else if decGE (-m) e overflowBound then .negInf
  else .fin m e

/-- Value of the literal `sign · ip.fp · 10^ex`, with IEEE overflow: the
mantissa reads all digits, the fractional ones shifting the exponent. -/
def mkNum (sign : Int) (ip fp : List Nat) (ex : Int) : JNum :=
  clampToDouble (sign * (digitsToNat (ip ++ fp) : Int)) (ex - fp.length)

/-- Exponent digits of a number literal (optional sign, then digits). -/
def parseJsonExpDigits (sign : Int) (ip fp : List Nat) (r : List Nat) :
    Option (JNum × List Nat) :=
  let p : Int × List Nat :=
    match r with
    | 43 :: rr => (1, rr)
    | 45 :: rr => (-1, rr)
    | _ => (1, r)
  let q := takeDigits p.2
  if q.1.isEmpty then none
  else some (mkNum sign ip fp (p.1 * (digitsToNat q.1 : Int)), q.2)

/-- Optional exponent part of a JSON number. -/
def parseJsonExp (sign : Int) (ip fp : List Nat) (r : List Nat) :
    Option (JNum × List Nat) :=
  match r with
  | 101 :: r2 => parseJsonExpDigits sign ip fp r2
  | 69 :: r2 => parseJsonExpDigits sign ip fp r2
  | _ => some (mkNum sign ip fp 0, r)

/-- A JSON number token (RFC 8259): `-? (0 | [1-9][0-9]*) frac? exp?`.
Leading zeros, a bare minus, `.5` and `5.` are rejected, as by
`JSON.parse`. -/
def parseJsonNumber (s : List Nat) : Option (JNum × List Nat) :=
  let p : Int × List Nat :=
    match s with
    | 45 :: r => (-1, r)
    | _ => (1, s)
  let ipr := takeDigits p.2
  if ipr.1.isEmpty then none
  else if 1 < ipr.1.length ∧ ipr.1.head? = some 48 then none
  else
    match ipr.2 with
    | 46 :: r2 =>
      let fpr := takeDigits r2
      if fpr.1.isEmpty then none
      else parseJsonExp p.1 ipr.1 fpr.1 fpr.2
    | _ => parseJsonExp p.1 ipr.1 [] ipr.2

/-- Value of one hex digit. -/
def hexVal (b : Nat) : Option Nat :=
  if 48 ≤ b ∧ b ≤ 57 then some (b - 48)
  else if 97 ≤ b ∧ b ≤ 102 then some (b - 87)
  else if 65 ≤ b ∧ b ≤ 70 then some (b - 55)
  else none

/-- UTF-8 bytes of a code unit below 0x10000. -/
def utf8Bytes (n : Nat) : List Nat :=
  if n < 128 then [n]
  else if n < 2048 then [192 + n / 64, 128 + n % 64]
  else [224 + n / 4096, 128 + n / 64 % 64, 128 + n % 64]

/-- Bytes of a JSON string literal after the opening quote, decoding the
escape sequences; raw control characters are rejected, as by `JSON.parse`.
`\uXXXX` escapes are decoded code-unit-wise to UTF-8 (surrogate pairs are
not combined, which affects only the byte content of non-BMP strings,
never a gate verdict). -/
def strBytes : List Nat → Option (List Nat × List Nat)
  | 34 :: rest => some ([], rest)
  | 92 :: 34 :: r => (strBytes r).map fun p => (34 :: p.1, p.2)
  | 92 :: 92 :: r => (strBytes r).map fun p => (92 :: p.1, p.2)
  | 92 :: 47 :: r => (strBytes r).map fun p => (47 :: p.1, p.2)
  | 92 :: 98 :: r => (strBytes r).map fun p => (8 :: p.1, p.2)
  | 92 :: 102 :: r => (strBytes r).map fun p => (12 :: p.1, p.2)
  | 92 :: 110 :: r => (strBytes r).map fun p => (10 :: p.1, p.2)
  | 92 :: 114 :: r => (strBytes r).map fun p => (13 :: p.1, p.2)
  | 92 :: 116 :: r => (strBytes r).map fun p => (9 :: p.1, p.2)
  | 92 :: 117 :: h1 :: h2 :: h3 :: h4 :: r =>
    match hexVal h1, hexVal h2, hexVal h3, hexVal h4 with
    | some a, some b, some c, some d =>
      (strBytes r).map fun p =>
        (utf8Bytes (((a * 16 + b) * 16 + c) * 16 + d) ++ p.1, p.2)
    | _, _, _, _ => none
  | 92 :: _ => none
  | b :: rest =>
    if b < 32 then none else (strBytes rest).map fun p => (b :: p.1, p.2)
  | [] => none

mutual

/-- A JSON value, fuelled; the caller has already skipped whitespace. -/
def parseVal : Nat → List Nat → Option (JVal × List Nat)
  | 0, _ => none
  | fuel + 1, s =>
    match s with
    | 123 :: r =>
      match skipWs r with
      | 125 :: r2 => some (.jobj [], r2)
      | r1 => parseObjLoop fuel r1 []
    | 91 :: r =>
      match skipWs r with
      | 93 :: r2 => some (.jarr [], r2)
      | r1 => parseArrLoop fuel r1 []
    | 34 :: r =>
      match strBytes r with
      | some (cs, rest) => some (.jstr cs, rest)
      | none => none
    | 110 :: 117 :: 108 :: 108 :: r => some (.jnull, r)
    | 116 :: 114 :: 117 :: 101 :: r => some (.jbool true, r)
    | 102 :: 97 :: 108 :: 115 :: 101 :: r => some (.jbool false, r)
    | _ =>
      match parseJsonNumber s with
      | some (n, rest) => some (.jnum n, rest)
      | none => none

/-- Members of a non-empty JSON object (no trailing comma). -/
def parseObjLoop : Nat → List Nat → List (List Nat × JVal) →
    Option (JVal × List Nat)
  | 0, _, _ => none
  | fuel + 1, s, acc =>
    match s with
    | 34 :: r =>
      match strBytes r with
      | some (key, r1) =>
        match skipWs r1 with
        | 58 :: r2 =>
          match parseVal fuel (skipWs r2) with
          | some (v, r3) =>
            match skipWs r3 with
            | 44 :: r4 => parseObjLoop fuel (skipWs r4) (acc ++ [(key, v)])
            | 125 :: r4 => some (.jobj (acc ++ [(key, v)]), r4)
            | _ => none
          | none => none
        | _ => none
      | none => none
    | _ => none

/-- Elements of a non-empty JSON array (no trailing comma). -/
def parseArrLoop : Nat → List Nat → List JVal → Option (JVal × List Nat)
  | 0, _, _ => none
  | fuel + 1, s, acc =>
    match parseVal fuel s with
    | some (v, r1) =>
      match skipWs r1 with
      | 44 :: r2 => parseArrLoop fuel (skipWs r2) (acc ++ [v])
      | 93 :: r2 => some (.jarr (acc ++ [v]), r2)
      | _ => none
    | none => none

end

/-- `JSON.parse` (a platform call in the source).  The fuel is the input
length plus a margin; every unit of fuel is spent only after consuming at
least one input byte, so it cannot run out on any input. -/
def parseTop (s : List Nat) : Option JVal :=
  match parseVal (s.length + 8) (skipWs s) with
  | some (v, rest) => if (skipWs rest).isEmpty then some v else none
  | none => none

/-- `Number`'s whitespace (the ASCII part: TAB LF VT FF CR SP; non-ASCII
whitespace arrives here as multi-byte UTF-8 and is not trimmed — such
strings are non-numeric under both semantics). -/
def isNumWs (b : Nat) : Bool :=
  b = 9 || b = 10 || b = 11 || b = 12 || b = 13 || b = 32

/-- Trim `Number`'s whitespace from both ends. -/
def trimJsWs (s : List Nat) : List Nat :=
  ((s.dropWhile isNumWs).reverse.dropWhile isNumWs).reverse

/-- Value of a digit in the given radix (2, 8 or 16). -/
def radixDigitVal (radix b : Nat) : Option Nat :=
  if 48 ≤ b ∧ b ≤ 57 ∧ b - 48 < radix then some (b - 48)
  else if radix = 16 ∧ 97 ≤ b ∧ b ≤ 102 then some (b - 87)
  else if radix = 16 ∧ 65 ≤ b ∧ b ≤ 70 then some (b - 55)
  else none

/-- Accumulate radix digits; fails on a non-digit. -/
def radixAcc (radix : Nat) : List Nat → Nat → Option Nat
  | [], acc => some acc
  | b :: rest, acc =>
    match radixDigitVal radix b with
    | some v => radixAcc radix rest (acc * radix + v)
    | none => none

/-- `Number("0x…")` / `"0o…"` / `"0b…"`. -/
def radixToNumber (radix : Nat) (ds : List Nat) : Option JNum :=
  if ds.isEmpty then none
  else (radixAcc radix ds 0).map fun v => clampToDouble (v : Int) 0

/-- Exponent part of a `Number` string literal (must end the string). -/
def strDecExpDigits (sign : Int) (ip fp : List Nat) (r : List Nat) :
    Option JNum :=
  let p : Int × List Nat :=
    match r with
    | 43 :: rr => (1, rr)
    | 45 :: rr => (-1, rr)
    | _ => (1, r)
  let q := takeDigits p.2
  if q.1.isEmpty ∨ ¬q.2.isEmpty then none
  else some (mkNum sign ip fp (p.1 * (digitsToNat q.1 : Int)))

/-- Rest of a `Number` decimal literal after mantissa digits. -/
def strDecExp (sign : Int) (ip fp : List Nat) (r : List Nat) : Option JNum :=
  match r with
  | [] => some (mkNum sign ip fp 0)
  | 101 :: r2 => strDecExpDigits sign ip fp r2
  | 69 :: r2 => strDecExpDigits sign ip fp r2
  | _ => none

/-- A `Number` decimal literal after the optional sign: `Infinity`, or
digits with optional fraction and exponent (`.5`, `5.`, leading zeros are
all allowed here, unlike in JSON). -/
def strDecLiteral (sign : Int) (t : List Nat) : Option JNum :=
  if t = ascii "Infinity" then
    some (if sign = 1 then JNum.posInf else JNum.negInf)
  else
    let ipr := takeDigits t
    match ipr.2 with
    | 46 :: r2 =>
      let fpr := takeDigits r2
      if ipr.1.isEmpty ∧ fpr.1.isEmpty then none
      else strDecExp sign ipr.1 fpr.1 fpr.2
    | _ =>
      if ipr.1.isEmpty then none
      else strDecExp sign ipr.1 [] ipr.2

/-- JS `Number(string)`: trim, empty → 0, hex/octal/binary forms, signed
decimal literal or `Infinity`; anything else is NaN (`none`). -/
def strToNumber (s : List Nat) : Option JNum :=
  let t := trimJsWs s
  if t.isEmpty then some (.fin 0 0)
  else
    match t with
    | 48 :: 120 :: rest => radixToNumber 16 rest
    | 48 :: 88 :: rest => radixToNumber 16 rest
    | 48 :: 111 :: rest => radixToNumber 8 rest
    | 48 :: 79 :: rest => radixToNumber 8 rest
    | 48 :: 98 :: rest => radixToNumber 2 rest
    | 48 :: 66 :: rest => radixToNumber 2 rest
    | 43 :: rest => strDecLiteral 1 rest
    | 45 :: rest => strDecLiteral (-1) rest
    | _ => strDecLiteral 1 t

mutual

/-- JS `ToNumber` on a JSON-derived value, as used by the subtraction
`Date.now() - tsData.generatedAt`: null → 0, booleans → 0/1, numbers
unchanged, strings via `Number(string)`, plain objects → NaN, arrays via
`ToPrimitive` (the comma-join of their elements, which is numeric only
for zero or one element). -/
def jsToNumber : JVal → Option JNum
  | .jnull => some (.fin 0 0)
  | .jbool b => some (.fin (if b then 1 else 0) 0)
  | .jnum n => some n
  | .jstr s => strToNumber s
  | .jarr elems => arrayToNumber elems
  | .jobj _ => none

/-- `Number(array)`: `[].toString()` is "" (→ 0); a singleton stringifies
its element; two or more elements always contain a comma → NaN. -/
def arrayToNumber : List JVal → Option JNum
  | [] => some (.fin 0 0)
  | [e] => elementToNumber e
  | _ => none

/-- `Number(String(e))` for a single array element: null stringifies to ""
(→ 0), a number round-trips exactly through its string form, strings via
`Number(string)`, nested arrays join recursively; booleans ("true"/
"false") and objects ("[object Object]") are not numeric. -/
def elementToNumber : JVal → Option JNum
  | .jnull => some (.fin 0 0)
  | .jnum n => some n
  | .jstr s => strToNumber s
  | .jarr elems => arrayToNumber elems
  | .jbool _ => none
  | .jobj _ => none

end

/-- `tsData.generatedAt`: the value of the "generatedAt" key of an object
(`JSON.parse` keeps the last duplicate key, hence the reverse); property
access on any other non-null value yields undefined (`none`). -/
def generatedAtOf (v : JVal) : Option JVal :=
  match v with
  | .jobj fields =>
    (fields.reverse.find? fun kv => kv.1 == ascii "generatedAt").map (·.2)
  | _ => none

/-- The gate's test `Date.now() - tsData.generatedAt > 20 * 1000` on a
parsed non-null ts value: undefined or NaN make the comparison false;
`now - (-Infinity)` is `+Infinity` (true), `now - Infinity` is
`-Infinity` (false).  For a finite value `m * 10 ^ e` the test
`now - m·10^e > 20000` is `¬ (m·10^e ≥ now - 20000)`. -/
def tsExpiredCheck (now : Int) (v : JVal) : Bool :=
  match generatedAtOf v with
  | none => false
  | some g =>
    match jsToNumber g with
    | none => false
    | some .posInf => false
    | some .negInf => true
    | some (.fin m e) => !decGE m e (now - 20000)

/-- The inbound request as seen by the combined middleware
(src/Middleware/Middleware.js lines 106-264). -/
structure GateRequest where
  ip : List Nat
  url : List Nat
  tsHeader : Option (List Nat)
  tsQuery : Option (List Nat)
  loginHeader : Option (List Nat)
  authenticationHeader : Option (List Nat)
  authorizationHeader : Option (List Nat)
  xSessionToken : Option (List Nat)
  xUserId : Option (List Nat)
deriving DecidableEq, Repr

/-- Outcome of the middleware: a denial with an HTTP status and the JSON
body's `error` string, or a call to `next()` with the user/session ids the
middleware attached to the request (none on the public path). -/
inductive GateResult where
  | deny (status : Nat) (msg : String)
  | allow (userId sessionId : Option (List Nat))
deriving DecidableEq, Repr

/-- Per-IP entry of the in-memory `rateLimitMap`. -/
structure RateData where
  firstRequestTime : Int
  requestCount : Nat
  blockUntil : Int
deriving DecidableEq, Repr

/-- The `rateLimitMap` (a JS `Map`), modelled as an association list. -/
abbrev RateMap := List (List Nat × RateData)

/-- `rateLimitMap.get(ip)`. -/
def mapGet (m : RateMap) (ip : List Nat) : Option RateData :=
  (m.find? fun e => e.1 == ip).map (·.2)

/-- `rateLimitMap.set(ip, d)`: replace the binding for `ip`. -/
def mapSet (m : RateMap) (ip : List Nat) (d : RateData) : RateMap :=
  (ip, d) :: m.filter fun e => !(e.1 == ip)

/-- The simulated `recordBlockedIp` of src/Middleware/Middleware.js lines
59-66: multiplier fixed at 1, block ends 5 minutes after `blockStart`. -/
def recordBlockedIpSim (blockStart : Int) : Int :=
  blockStart + 300000 * 1

/-- Step 1 of the middleware (lines 108-128): per-IP throttling with the
simulated block recorder.  Returns an optional denial and the updated map
(the blocked-IP early return leaves the map untouched). -/
def rateLimitStep (m : RateMap) (ip : List Nat) (now : Int) :
    Option (Nat × String) × RateMap :=
  let rd := (mapGet m ip).getD
    { firstRequestTime := now, requestCount := 0, blockUntil := 0 }
  if now < rd.blockUntil then
    (some (429, "Too many requests. Your IP is temporarily blocked."), m)
  else if now - rd.firstRequestTime > 15000 then
    (none, mapSet m ip
      { firstRequestTime := now, requestCount := 1, blockUntil := rd.blockUntil })
  else if rd.requestCount + 1 > 50 then
    let d := { rd with requestCount := rd.requestCount + 1, blockUntil := recordBlockedIpSim now }
    (some (429, "Too many requests. Your IP is temporarily blocked."),
      mapSet m ip d)
  else
    (none, mapSet m ip { rd with requestCount := rd.requestCount + 1 })

/-- Step 2 of the middleware (lines 130-144): the ts freshness check.
Missing/empty token: 400; base64-decode then JSON-parse failure: 400;
parsed `null`: the later property access throws and the outer catch
answers 500; otherwise the JS test `now - tsData.generatedAt > 20000`
(`tsExpiredCheck`, with ToNumber coercion) decides between 401 and pass —
in particular a value without a `generatedAt` member passes, since its
subtraction yields NaN. -/
def tsCheckStep (r : GateRequest) (now : Int) : Option GateResult :=
  let tsToken := jsOr r.tsHeader r.tsQuery
  if !truthy tsToken then some (.deny 400 "Missing TS token")
  else
    match parseTop (b64decode (tsToken.getD [])) with
    | none => some (.deny 400 "Invalid TS token")
    | some .jnull => some (.deny 500 "Internal server error.")
    | some v =>
      if tsExpiredCheck now v then
        some (.deny 401 "Expired TS token. Please refresh or re-login.")
      else none

/-- The configured protected-route list (lines 92-98). -/
def PROTECTED_ROUTES : List (List Nat) :=
  [ascii "/api/wallpapers", ascii "/api/user/profile",
   ascii "/api/user/settings", ascii "/api/user/favorites"]

/-- `isProtectedRoute` (lines 101-103): the url starts with one of the
protected roots. -/
def isProtectedRoute (url : List Nat) : Bool :=
  PROTECTED_ROUTES.any fun route => route.isPrefixOf url

/-- The placeholder `getLoginRecord` of src/Middleware/Middleware.js lines
38-44: ignores its arguments and returns a fixed active record. -/
structure LoginRecordMock where
  session_id : List Nat
  is_logged_in : Bool
deriving DecidableEq, Repr

def getLoginRecordMock (_userId _authToken : List Nat) : LoginRecordMock :=
  { session_id := ascii "sample-session-id-from-db", is_logged_in := true }

/-- The placeholder `getSessionRecord` of lines 46-51: ignores its
arguments and returns a (truthy) object. -/
def getSessionRecordMock (_sessionId _sessionToken : List Nat) : Bool :=
  true

/-- Steps 3-7 of the middleware (lines 146-259): public short-circuit,
credential extraction, token decoding, user-id cross-check, and the
(placeholder) registry lookups. -/
def authStage (secret : List Nat) (r : GateRequest) : GateResult :=
  let routeRequiresAuth := isProtectedRoute r.url
  let loginFalse := truthyLower r.loginHeader "false"
  let authPublic := truthyLower r.authenticationHeader "public"
  if !routeRequiresAuth || loginFalse || authPublic then
    if routeRequiresAuth && loginFalse then
      .deny 401 "Authentication required"
    else
      .allow none none
  else
    match r.authorizationHeader with
    | some ah =>
      if (ascii "Bearer ").isPrefixOf ah then
        let authToken := ah.drop 7
        if !truthy r.xSessionToken then
          .deny 401 "Missing X-Session-Token header"
        else
          match extractUserIdFromAuthToken secret authToken with
          | .error _ => .deny 401 "Invalid auth token"
          | .ok uid =>
            if truthy r.xUserId && !(r.xUserId.getD [] == uid) then
              .deny 401 "User identification mismatch"
            else
              let lr := getLoginRecordMock uid authToken
              if !lr.is_logged_in then
                .deny 401 "Session expired or user not logged in"
              else if !getSessionRecordMock lr.session_id
                  (r.xSessionToken.getD []) then
                .deny 401 "Invalid session"
              else
                .allow (some uid) (some lr.session_id)
      else .deny 401 "Missing or malformed Authorization header"
    | none => .deny 401 "Missing or malformed Authorization header"

/-- Steps 2-7 chained: ts check, then the auth stage. -/
def tsAuthStage (secret : List Nat) (r : GateRequest) (now : Int) :
    GateResult :=
  match tsCheckStep r now with
  | some d => d
  | none => authStage secret r

/-- `authAndRateLimiterMiddleware` (src/Middleware/Middleware.js lines
106-264): throttle, then ts check, then conditional authentication. -/
def authAndRateLimiterMiddleware (secret : List Nat) (r : GateRequest)
    (m : RateMap) (now : Int) : GateResult × RateMap :=
  match rateLimitStep m r.ip now with
  | (some (s, msg), m') => (.deny s msg, m')
  | (none, m') => (tsAuthStage secret r now, m')

/-- One row of the `blocked_ips` table (src/unnamed/part_011). -/
structure BlockedRow where
  ip : List Nat
  request_count : Nat
  block_start : Int
  block_end : Int
  route : List Nat
deriving DecidableEq, Repr

/-- `SELECT ... WHERE ip = $1 ORDER BY created_at DESC LIMIT 1`: rows are
prepended on insert, so the first match is the most recent. -/
def latestBlockRow (table : List BlockedRow) (ip : List Nat) :
    Option BlockedRow :=
  table.find? fun row => row.ip == ip

/-- The multiplier of the database-backed `recordBlockedIp`
(src/unnamed/part_011 lines 116-156): previous `request_count + 1` while
the previous block is still in force, else 1. -/
def blockMultiplier (table : List BlockedRow) (ip : List Nat) (now : Int) :
    Nat :=
  match latestBlockRow table ip with
  | some lastRecord =>
    if now < lastRecord.block_end then lastRecord.request_count + 1 else 1
  | none => 1

/-- The database-backed `recordBlockedIp` (src/unnamed/part_011 lines
116-156): compute the multiplier, insert a `blocked_ips` row carrying it,
and return the new block end `blockStart + 5 min × multiplier`. -/
def recordBlockedIp (table : List BlockedRow) (ip route : List Nat)
    (blockStart now : Int) : Int × List BlockedRow :=
  let multiplier := blockMultiplier table ip now
  let newBlockEnd := blockStart + 300000 * multiplier
  (newBlockEnd,
    { ip := ip, request_count := multiplier, block_start := blockStart,
      block_end := newBlockEnd, route := route } :: table)

/-- The throttle step of src/unnamed/part_011 lines 186-207, which uses
the database-backed `recordBlockedIp`. -/
def throttleStep (m : RateMap) (table : List BlockedRow)
    (ip route : List Nat) (now : Int) :
    Option (Nat × String) × RateMap × List BlockedRow :=
  let rd := (mapGet m ip).getD
    { firstRequestTime := now, requestCount := 0, blockUntil := 0 }
  if now < rd.blockUntil then
    (some (429, "Too many requests. Your IP is temporarily blocked."), m, table)
  else if now - rd.firstRequestTime > 15000 then
    (none, mapSet m ip
      { firstRequestTime := now, requestCount := 1, blockUntil := rd.blockUntil },
      table)
  else if rd.requestCount + 1 > 50 then
    let res := recordBlockedIp table ip route now now
    let d := { rd with requestCount := rd.requestCount + 1, blockUntil := res.1 }
    (some (429, "Too many requests. Your IP is temporarily blocked."),
      mapSet m ip d, res.2)
  else
    (none, mapSet m ip { rd with requestCount := rd.requestCount + 1 }, table)

/-- Iterate the throttle step over a sequence of request arrival times
from one IP, collecting each request's throttle outcome. -/
def runThrottleSeq (ip route : List Nat) :
    List Int → RateMap → List BlockedRow →
      List (Option (Nat × String)) × RateMap × List BlockedRow
  | [], m, table => ([], m, table)
  | t :: rest, m, table =>
    let step := throttleStep m table ip route t
    let next := runThrottleSeq ip route rest step.2.1 step.2.2
    (step.1 :: next.1, next.2)

/-- base64 of the two-byte text `\x7b\x7d` (an empty JSON object). -/
def tsEmptyObj : List Nat := ascii "e30="

/-- base64 of `\x7b"generatedAt":1\x7d`. -/
def tsGen1 : List Nat := b64encode (ascii "\x7b\"generatedAt\":1\x7d")

/-- Concrete requests for the middleware counterexamples and witnesses. -/
def cReqPublicOk : GateRequest :=
  { ip := [9], url := ascii "/", tsHeader := some tsEmptyObj, tsQuery := none,
    loginHeader := none, authenticationHeader := none,
    authorizationHeader := none, xSessionToken := none, xUserId := none }

def cReqPublicLoginFalse : GateRequest :=
  { ip := [9], url := ascii "/api/wallpapers", tsHeader := some tsEmptyObj,
    tsQuery := none, loginHeader := some (ascii "false"),
    authenticationHeader := some (ascii "public"),
    authorizationHeader := none, xSessionToken := none, xUserId := none }

def cReqPublicMarker : GateRequest :=
  { ip := [9], url := ascii "/api/wallpapers", tsHeader := some tsEmptyObj,
    tsQuery := none, loginHeader := none,
    authenticationHeader := some (ascii "PuBlIc"),
    authorizationHeader := some (ascii "garbage"),
    xSessionToken := none, xUserId := some (ascii "whoever") }

def cReqShortTok : GateRequest :=
  { ip := [9], url := ascii "/api/wallpapers", tsHeader := some tsEmptyObj,
    tsQuery := none, loginHeader := none, authenticationHeader := none,
    authorizationHeader := some (ascii "Bearer abc"),
    xSessionToken := some (ascii "st"), xUserId := none }

def cReqTsGen : GateRequest :=
  { ip := [9], url := ascii "/", tsHeader := some tsGen1, tsQuery := none,
    loginHeader := none, authenticationHeader := none,
    authorizationHeader := none, xSessionToken := none, xUserId := none }

/-- Concrete inputs used by witness theorems for the token codec. -/
def cSecret : List Nat := ascii "topsecretvalue"

def cUserId : List Nat := ascii "3f2b1c"

/-- Concrete inputs for the `/vailed` validator theorems: a two-character
secret "ss", user "u1", and a well-formed token whose affixes are filler. -/
def c8uid : List Nat := ascii "u1"

def c8secret : List Nat := ascii "ss"

def c8tok : List Nat :=
  List.replicate 20 48 ++ b64encode (ascii "s" ++ c8uid ++ ascii "s")
    ++ List.replicate 16 48

def c8login : LoginRow :=
  { user_id := c8uid, session_id := ascii "sid1", auth_token := c8tok,
    expires_at := 1000, is_logged_in := true }

def c8sessions : List SessionRow :=
  [{ session_id := ascii "sid1", session_token := ascii "stok",
     generated_at := 5, last_access := 5 }]

theorem b64val_b64chr : ∀ v < 64, b64val (b64chr v) = some v := by decide

theorem b64encode_ne_nil : ∀ bs : List Nat, bs ≠ [] → b64encode bs ≠ []
  | [], h => absurd rfl h
  | [_], _ => by simp [b64encode]
  | [_, _], _ => by simp [b64encode]
  | _ :: _ :: _ :: _, _ => by simp [b64encode]

theorem b64_roundtrip :
    ∀ bs : List Nat, (∀ b ∈ bs, b < 256) → b64decode (b64encode bs) = bs
  | [], _ => rfl
  | [b1], h => by
    have hb1 : b1 < 256 := h b1 (by simp)
    have v1 := b64val_b64chr (b1 / 4) (by omega)
    have v2 := b64val_b64chr ((b1 % 4) * 16) (by omega)
    have vpad : b64val 61 = none := rfl
    simp only [b64encode, b64decode, List.filterMap_cons, v1, v2, vpad,
      List.filterMap_nil, b64decodeCore, List.cons.injEq, and_true]
    omega
  | [b1, b2], h => by
    have hb1 : b1 < 256 := h b1 (by simp)
    have hb2 : b2 < 256 := h b2 (by simp)
    have v1 := b64val_b64chr (b1 / 4) (by omega)
    have v2 := b64val_b64chr ((b1 % 4) * 16 + b2 / 16) (by omega)
    have v3 := b64val_b64chr ((b2 % 16) * 4) (by omega)
    have vpad : b64val 61 = none := rfl
    simp only [b64encode, b64decode, List.filterMap_cons, v1, v2, v3, vpad,
      List.filterMap_nil, b64decodeCore, List.cons.injEq, and_true]
    omega
  | b1 :: b2 :: b3 :: rest, h => by
    have hb1 : b1 < 256 := h b1 (by simp)
    have hb2 : b2 < 256 := h b2 (by simp)
    have hb3 : b3 < 256 := h b3 (by simp)
    have ih := b64_roundtrip rest (fun b hb => h b (by simp [hb]))
    have v1 := b64val_b64chr (b1 / 4) (by omega)
    have v2 := b64val_b64chr ((b1 % 4) * 16 + b2 / 16) (by omega)
    have v3 := b64val_b64chr ((b2 % 16) * 4 + b3 / 64) (by omega)
    have v4 := b64val_b64chr (b3 % 64) (by omega)
    simp only [b64decode] at ih
    simp only [b64encode, b64decode, List.filterMap_cons, v1, v2, v3, v4,
      b64decodeCore, ih, List.cons.injEq, and_true]
    omega

theorem bytesToHex_length : ∀ bs : List Nat, (bytesToHex bs).length = 2 * bs.length
  | [] => rfl
  | _ :: rest => by
    simp [bytesToHex, bytesToHex_length rest]
    omega

theorem isPrefixOf_append_self :
    ∀ a b : List Nat, a.isPrefixOf (a ++ b) = true
  | [], _ => by simp [List.isPrefixOf]
  | x :: xs, b => by
    simp [List.isPrefixOf, isPrefixOf_append_self xs b]

theorem isSuffixOf_append_self (a b : List Nat) :
    b.isSuffixOf (a ++ b) = true := by
  unfold List.isSuffixOf
  rw [List.reverse_append]
  exact isPrefixOf_append_self b.reverse a.reverse

theorem extract_congr (secret t t' : List Nat) (hlen : t.length = t'.length)
    (hmid : (t.drop 20).take (t.length - 36) = (t'.drop 20).take (t'.length - 36)) :
    extractUserIdFromAuthToken secret t = extractUserIdFromAuthToken secret t' := by
  unfold extractUserIdFromAuthToken
  rw [hmid, hlen]

/-- C1.  Token codec round-trip: for every user id byte string, every
non-empty shared secret, and every choice of the 10 random prefix bytes and
8 random suffix bytes, extracting the user id from a freshly minted token
returns the user id. -/
theorem token_mint_extract_roundtrip (secret u pb sb : List Nat)
    (hsec : secret ≠ []) (hbytes : ∀ b ∈ secret ++ u, b < 256)
    (hpb : pb.length = 10) (hsb : sb.length = 8) :
    (generatePublicAuthToken secret u pb sb).bind
      (extractUserIdFromAuthToken secret) = Except.ok u := by
  have hempty : secret.isEmpty = false := by
    cases secret with
    | nil => exact absurd rfl hsec
    | cons x xs => rfl
  have hk : secret.length / 2 ≤ secret.length := Nat.div_le_self _ _
  set sF := secret.take (secret.length / 2) with hsF
  set sS := secret.drop (secret.length / 2) with hsS
  have hsSne : sS ≠ [] := by
    rw [hsS]
    intro hcon
    rw [List.drop_eq_nil_iff] at hcon
    have hpos : 0 < secret.length := List.length_pos.mpr hsec
    omega
  set merged := sF ++ u ++ sS with hmerged
  have hmne : merged ≠ [] := by
    rw [hmerged]
    simp [hsSne]
  have hence : b64encode merged ≠ [] := b64encode_ne_nil merged hmne
  have hencpos : 0 < (b64encode merged).length := List.length_pos.mpr hence
  have hhex1 : (bytesToHex pb).length = 20 := by rw [bytesToHex_length, hpb]
  have hhex2 : (bytesToHex sb).length = 16 := by rw [bytesToHex_length, hsb]
  set tok := bytesToHex pb ++ b64encode merged ++ bytesToHex sb with htok
  have htoklen : tok.length = 36 + (b64encode merged).length := by
    rw [htok]
    simp [List.length_append, hhex1, hhex2]
    omega
  have hnotshort : ¬tok.length ≤ 20 + 16 := by omega
  have hdrop : tok.drop 20 = b64encode merged ++ bytesToHex sb := by
    rw [htok, List.append_assoc]
    exact List.drop_left' hhex1
  have htake : (tok.drop 20).take (tok.length - 36) = b64encode merged := by
    rw [hdrop]
    exact List.take_left' (by omega)
  have hmb : ∀ b ∈ merged, b < 256 := by
    intro b hb
    rw [hmerged] at hb
    rcases List.mem_append.mp hb with hb' | hb'
    · rcases List.mem_append.mp hb' with hb'' | hb''
      · exact hbytes b (List.mem_append.mpr (.inl (List.take_subset _ _ hb'')))
      · exact hbytes b (List.mem_append.mpr (.inr hb''))
    · exact hbytes b (List.mem_append.mpr (.inl (List.drop_subset _ _ hb')))
  have hdec : b64decode (b64encode merged) = merged := b64_roundtrip merged hmb
  have hpre : sF.isPrefixOf merged = true := by
    rw [hmerged, List.append_assoc]
    exact isPrefixOf_append_self sF (u ++ sS)
  have hsuf : sS.isSuffixOf merged = true := by
    rw [hmerged]
    exact isSuffixOf_append_self (sF ++ u) sS
  have hmlen : merged.length = sF.length + u.length + sS.length := by
    rw [hmerged]
    simp [List.length_append]
    omega
  have hdropm : merged.drop sF.length = u ++ sS := by
    rw [hmerged, List.append_assoc]
    exact List.drop_left' rfl
  have hfinal : (merged.drop sF.length).take
      (merged.length - sS.length - sF.length) = u := by
    rw [hdropm]
    exact List.take_left' (by omega)
  simp only [generatePublicAuthToken, hempty, Bool.false_eq_true, if_false,
    Except.bind]
  unfold extractUserIdFromAuthToken
  rw [if_neg hnotshort]
  simp only [← hsF, ← hsS, htake, hdec, hempty, Bool.false_eq_true, if_false,
    hpre, hsuf, Bool.and_self, if_pos, hfinal]

/-- Witness for C1 at a concrete secret, user id and random bytes. -/
theorem token_mint_extract_roundtrip_witness :
    (generatePublicAuthToken cSecret cUserId (List.replicate 10 0)
        (List.replicate 8 0)).bind
      (extractUserIdFromAuthToken cSecret) = Except.ok cUserId :=
  token_mint_extract_roundtrip cSecret cUserId _ _ (by decide) (by decide)
    (by decide) (by decide)

/-- C10.  Affix noninterference: the result of extraction depends only on
the middle payload segment; the two affixes can be replaced by arbitrary
byte strings of the same lengths (20 and 16) without changing the result
(both runs fail identically or return the same user id). -/
theorem extract_affix_noninterference (secret p s1 s2 s1' s2' : List Nat)
    (h1 : s1.length = 20) (h2 : s2.length = 16)
    (h1' : s1'.length = 20) (h2' : s2'.length = 16) :
    extractUserIdFromAuthToken secret (s1 ++ p ++ s2)
      = extractUserIdFromAuthToken secret (s1' ++ p ++ s2') := by
  have hmid : ∀ a b : List Nat, a.length = 20 → b.length = 16 →
      ((a ++ p ++ b).drop 20).take ((a ++ p ++ b).length - 36) = p := by
    intro a b ha hb
    have hlen : (a ++ p ++ b).length = 36 + p.length := by
      simp [List.length_append, ha, hb]
      omega
    rw [hlen, List.append_assoc, List.drop_left' ha]
    exact List.take_left' (by omega)
  apply extract_congr
  · simp [List.length_append, h1, h2, h1', h2']
  · rw [hmid s1 s2 h1 h2, hmid s1' s2' h1' h2']

theorem loginStep_filter_active (uid : List Nat) (t : List LoginRow)
    (e : LoginEvent) :
    (loginStep uid t e).filter (activeFor uid) = [newLoginRow uid e] := by
  unfold loginStep
  rw [List.filter_append]
  have h1 : (t.map fun r =>
      if r.user_id == uid then { r with is_logged_in := false } else r).filter
        (activeFor uid) = [] := by
    rw [List.filter_eq_nil_iff]
    intro a ha
    obtain ⟨r, _, rfl⟩ := List.mem_map.mp ha
    by_cases h : r.user_id == uid
    · simp [h, activeFor]
    · simp [h, activeFor]
  have h2 : [newLoginRow uid e].filter (activeFor uid) = [newLoginRow uid e] := by
    simp [activeFor, newLoginRow]
  rw [h1, h2, List.nil_append]

/-- C2.  Single-active-login invariant: after any non-empty sequence of
sequential completed logins for `uid` (each deactivating all existing rows
of `uid` and then inserting a fresh active row), exactly one
`manage_logins` row of `uid` is active, namely the row inserted by the
most recent login. -/
theorem login_single_active (uid : List Nat) (t0 : List LoginRow)
    (es : List LoginEvent) (e : LoginEvent) (hlast : es.getLast? = some e) :
    (runLogins uid t0 es).filter (activeFor uid) = [newLoginRow uid e] := by
  induction es generalizing t0 with
  | nil => simp at hlast
  | cons e' rest ih =>
    cases rest with
    | nil =>
      simp at hlast
      subst hlast
      exact loginStep_filter_active uid t0 e'
    | cons f rest' =>
      rw [List.getLast?_cons_cons] at hlast
      exact ih (loginStep uid t0 e') hlast

/-- Witness for C2: two sequential logins; only the second row is active. -/
theorem login_single_active_witness :
    (runLogins (ascii "u1") []
        [⟨ascii "sid1", ascii "tok1", 50⟩, ⟨ascii "sid2", ascii "tok2", 90⟩]).filter
      (activeFor (ascii "u1"))
    = [newLoginRow (ascii "u1") ⟨ascii "sid2", ascii "tok2", 90⟩] :=
  login_single_active (ascii "u1") [] _ _ (by decide)

/-- C7.  Logout semantics: if the user has no active row the handler
answers 400 ("No active session found for this user.") and leaves the
table unchanged; otherwise it answers 200 and flips `is_logged_in` to
false on exactly the rows of `u` that were active, leaving no active row
for `u`. -/
theorem logout_revokes_all (u : List Nat) (t : List LoginRow) :
    ((∀ r ∈ t, activeFor u r = false) →
      logoutHandler u t = ((400, "No active session found for this user."), t))
  ∧ (∀ r₀ ∈ t, activeFor u r₀ = true →
      (logoutHandler u t).1 = (200, "Logged out successfully.")
      ∧ (logoutHandler u t).2
          = (t.map fun r =>
              if r.user_id == u && r.is_logged_in then
                { r with is_logged_in := false }
              else r)
      ∧ (logoutHandler u t).2.filter (activeFor u) = []) := by
  constructor
  · intro hnone
    have hfil : t.filter (activeFor u) = [] := by
      rw [List.filter_eq_nil_iff]
      intro a ha
      simp [hnone a ha]
    simp [logoutHandler, hfil]
  · intro r₀ hr₀ hact
    have hne : t.filter (activeFor u) ≠ [] := by
      intro hc
      rw [List.filter_eq_nil_iff] at hc
      exact hc r₀ hr₀ hact
    have hie : (t.filter (activeFor u)).isEmpty = false := by
      cases hfe : t.filter (activeFor u) with
      | nil => exact absurd hfe hne
      | cons a l => rfl
    refine ⟨by simp [logoutHandler, hie], by simp [logoutHandler, hie], ?_⟩
    simp only [logoutHandler, hie, Bool.false_eq_true, if_false]
    rw [List.filter_eq_nil_iff]
    intro a ha
    obtain ⟨r, _, rfl⟩ := List.mem_map.mp ha
    by_cases h : r.user_id == u && r.is_logged_in
    · simp [h, activeFor]
    · simp [h]
      simpa [activeFor] using h

/-- Witness for C7: one active and one inactive row; logout answers 200,
deactivates the active row, and leaves no active row. -/
theorem logout_revokes_all_witness :
    (logoutHandler (ascii "u1")
        [⟨ascii "u1", ascii "sid1", ascii "tok1", 50, true⟩,
         ⟨ascii "u2", ascii "sid2", ascii "tok2", 60, true⟩]).1
      = (200, "Logged out successfully.")
    ∧ (logoutHandler (ascii "u1")
        [⟨ascii "u1", ascii "sid1", ascii "tok1", 50, true⟩,
         ⟨ascii "u2", ascii "sid2", ascii "tok2", 60, true⟩]).2.filter
        (activeFor (ascii "u1")) = [] := by
  have h := (logout_revokes_all (ascii "u1")
      [⟨ascii "u1", ascii "sid1", ascii "tok1", 50, true⟩,
       ⟨ascii "u2", ascii "sid2", ascii "tok2", 60, true⟩]).2
      ⟨ascii "u1", ascii "sid1", ascii "tok1", 50, true⟩ (by decide) (by decide)
  exact ⟨h.1, h.2.2⟩

/-- C3.  Expiry-check division of labour: the login-registry lookup filters
only on `user_id`, `auth_token` and `is_logged_in` — replacing every row's
`expires_at` by anything leaves its result unchanged (modulo the same
replacement) — and the validator performs the `now > expires_at` check
itself afterwards, so a missing login row and a present-but-expired one
produce two distinct denials. -/
theorem login_lookup_expiry_division :
    (∀ (logins : List LoginRow) (uid tok : List Nat) (g : LoginRow → Int),
        lookupActiveLogin (logins.map fun r => { r with expires_at := g r })
            uid tok
          = (lookupActiveLogin logins uid tok).map
              fun r => { r with expires_at := g r })
  ∧ (∀ (secret uid tok stok : List Nat) (logins : List LoginRow)
        (sessions : List SessionRow) (now : Int),
        uid ≠ [] → stok ≠ [] → tok ≠ [] →
        verifyAuthToken secret tok uid = true →
        ((lookupActiveLogin logins uid tok = none →
            (vailedHandler secret (some uid) (some (ascii "Bearer " ++ tok))
                (some stok) logins sessions now).1
              = (401, "Login session not found or inactive."))
         ∧ (∀ ld, lookupActiveLogin logins uid tok = some ld →
            now > ld.expires_at →
            (vailedHandler secret (some uid) (some (ascii "Bearer " ++ tok))
                (some stok) logins sessions now).1
              = (401, "Authentication token expired.")))) := by
  constructor
  · intro logins uid tok g
    unfold lookupActiveLogin
    rw [List.filter_map]
    have hs : ∀ l : List LoginRow,
        singleQ (l.map fun r => { r with expires_at := g r })
          = (singleQ l).map fun r => { r with expires_at := g r } := by
      intro l
      rcases l with _ | ⟨a, _ | ⟨b, t⟩⟩ <;> rfl
    exact hs _
  · intro secret uid tok stok logins sessions now huid hstok htok hverify
    have htruid : truthy (some uid) = true := by
      simp [truthy, huid]
    have htrstok : truthy (some stok) = true := by
      simp [truthy, hstok]
    have hbear : (ascii "Bearer ").isPrefixOf (ascii "Bearer " ++ tok) = true :=
      isPrefixOf_append_self _ _
    have hdrop : (ascii "Bearer " ++ tok).drop 7 = tok :=
      List.drop_left' (by rfl)
    have htrtok : truthy (some tok) = true := by
      simp [truthy, htok]
    constructor
    · intro hnone
      simp only [vailedHandler, htruid, Bool.not_true, Bool.false_eq_true,
        if_false, hbear, if_pos, hdrop, Option.getD_some, htrtok, htrstok,
        Bool.false_or, hverify, hnone]
    · intro ld hsome hexp
      simp only [vailedHandler, htruid, Bool.not_true, Bool.false_eq_true,
        if_false, hbear, if_pos, hdrop, Option.getD_some, htrtok, htrstok,
        Bool.false_or, hverify, hsome, hexp, if_pos]

/-- Witness for C3: with an empty login registry the validator answers the
"not found" denial, distinct from the expiry denial. -/
theorem login_lookup_expiry_division_witness :
    (vailedHandler c8secret (some c8uid) (some (ascii "Bearer " ++ c8tok))
        (some (ascii "stok")) [] c8sessions 100).1
      = (401, "Login session not found or inactive.") :=
  (login_lookup_expiry_division.2 c8secret c8uid c8tok (ascii "stok") []
      c8sessions 100 (by decide) (by decide) (by decide) (by decide)).1
    (by decide)

/-- Counterexample to C8 as stated: a request whose session lookup succeeds
(the validator answers 200) leaves the matched session row's `last_access`
at its old value 5 instead of updating it to the current time 100. -/
theorem session_touch_cex :
    (vailedHandler c8secret (some c8uid) (some (ascii "Bearer " ++ c8tok))
        (some (ascii "stok")) [c8login] c8sessions 100).1.1 = 200
    ∧ (vailedHandler c8secret (some c8uid) (some (ascii "Bearer " ++ c8tok))
        (some (ascii "stok")) [c8login] c8sessions 100).2.2
      = [{ session_id := ascii "sid1", session_token := ascii "stok",
           generated_at := 5, last_access := 5 }]
    ∧ (5 : Int) ≠ 100 := by
  refine ⟨by decide, by decide, by decide⟩

/-- C8 (amended).  The validator's session lookup is a pure read: on a
successful validation (status 200) both stores, including every session
row's `last_access`, are returned unchanged; `last_access` is written only
by the login-time insert, which sets it equal to `generated_at`. -/
theorem session_lookup_pure_read :
    (∀ (secret : List Nat) (xu ah st : Option (List Nat))
        (logins : List LoginRow) (sessions : List SessionRow) (now : Int),
        (vailedHandler secret xu ah st logins sessions now).1.1 = 200 →
        (vailedHandler secret xu ah st logins sessions now).2
          = (logins, sessions))
  ∧ (∀ (sessions : List SessionRow) (sid stok : List Nat) (g : Int),
        (recordSessionInsert sessions sid stok g).getLast?
          = some { session_id := sid, session_token := stok,
                   generated_at := g, last_access := g }) := by
  constructor
  · intro secret xu ah st logins sessions now _h
    unfold vailedHandler
    dsimp only
    repeat' split
    all_goals rfl
  · intro sessions sid stok g
    unfold recordSessionInsert
    rw [List.getLast?_concat]

/-- Witness for C8 (amended): the successful concrete validation from the
counterexample leaves the stores unchanged. -/
theorem session_lookup_pure_read_witness :
    (vailedHandler c8secret (some c8uid) (some (ascii "Bearer " ++ c8tok))
        (some (ascii "stok")) [c8login] c8sessions 100).2
      = ([c8login], c8sessions) :=
  session_lookup_pure_read.1 c8secret (some c8uid)
    (some (ascii "Bearer " ++ c8tok)) (some (ascii "stok")) [c8login]
    c8sessions 100 (by decide)

theorem gate_rate_pass (secret : List Nat) (r : GateRequest) (m m' : RateMap)
    (now : Int) (hrate : rateLimitStep m r.ip now = (none, m')) :
    authAndRateLimiterMiddleware secret r m now
      = (tsAuthStage secret r now, m') := by
  unfold authAndRateLimiterMiddleware
  rw [hrate]

theorem tsCheck_missing (r : GateRequest) (now : Int)
    (h : truthy (jsOr r.tsHeader r.tsQuery) = false) :
    tsCheckStep r now = some (.deny 400 "Missing TS token") := by
  unfold tsCheckStep
  simp [h]

theorem tsCheck_badparse (r : GateRequest) (now : Int) (tv : List Nat)
    (hjs : jsOr r.tsHeader r.tsQuery = some tv) (hne : tv ≠ [])
    (hp : parseTop (b64decode tv) = none) :
    tsCheckStep r now = some (.deny 400 "Invalid TS token") := by
  unfold tsCheckStep
  rw [hjs]
  simp [truthy, hne, hp]

theorem tsCheck_expired (r : GateRequest) (now : Int) (tv : List Nat)
    (v : JVal)
    (hjs : jsOr r.tsHeader r.tsQuery = some tv) (hne : tv ≠ [])
    (hp : parseTop (b64decode tv) = some v) (hv : v ≠ .jnull)
    (hold : tsExpiredCheck now v = true) :
    tsCheckStep r now
      = some (.deny 401 "Expired TS token. Please refresh or re-login.") := by
  unfold tsCheckStep
  rw [hjs]
  cases v with
  | jnull => exact absurd rfl hv
  | jbool b => simp [truthy, hne, hp, hold]
  | jnum n => simp [truthy, hne, hp, hold]
  | jstr s => simp [truthy, hne, hp, hold]
  | jarr elems => simp [truthy, hne, hp, hold]
  | jobj fields => simp [truthy, hne, hp, hold]

theorem tsCheck_pass (r : GateRequest) (now : Int) (tv : List Nat)
    (v : JVal)
    (hjs : jsOr r.tsHeader r.tsQuery = some tv) (hne : tv ≠ [])
    (hp : parseTop (b64decode tv) = some v) (hv : v ≠ .jnull)
    (hfresh : tsExpiredCheck now v = false) :
    tsCheckStep r now = none := by
  unfold tsCheckStep
  rw [hjs]
  cases v with
  | jnull => exact absurd rfl hv
  | jbool b => simp [truthy, hne, hp, hfresh]
  | jnum n => simp [truthy, hne, hp, hfresh]
  | jstr s => simp [truthy, hne, hp, hfresh]
  | jarr elems => simp [truthy, hne, hp, hfresh]
  | jobj fields => simp [truthy, hne, hp, hfresh]

/-- C4 (amended).  Freshness gate behaviour once the throttle passes: a
missing or empty ts value is denied 400 "Missing TS token"; a supplied
value whose base64 decoding `JSON.parse` rejects is denied 400 "Invalid
TS token"; a parsed non-null value on which the gate's test
`now - tsData.generatedAt > 20 s` (with JS ToNumber coercion) is true is
denied 401; otherwise — in particular for a parsed object *without*
`generatedAt`, whose subtraction yields NaN — the check passes and
evaluation continues with the authentication stage: the gate does not
require the decoded JSON to have the `generatedAt` shape. -/
theorem ts_token_gate_behavior (secret : List Nat) (r : GateRequest)
    (m m' : RateMap) (now : Int)
    (hrate : rateLimitStep m r.ip now = (none, m')) :
    (truthy (jsOr r.tsHeader r.tsQuery) = false →
      authAndRateLimiterMiddleware secret r m now
        = (.deny 400 "Missing TS token", m'))
  ∧ (∀ tv, jsOr r.tsHeader r.tsQuery = some tv → tv ≠ [] →
      parseTop (b64decode tv) = none →
      authAndRateLimiterMiddleware secret r m now
        = (.deny 400 "Invalid TS token", m'))
  ∧ (∀ tv v, jsOr r.tsHeader r.tsQuery = some tv → tv ≠ [] →
      parseTop (b64decode tv) = some v → v ≠ .jnull →
      tsExpiredCheck now v = true →
      authAndRateLimiterMiddleware secret r m now
        = (.deny 401 "Expired TS token. Please refresh or re-login.", m'))
  ∧ (∀ tv v, jsOr r.tsHeader r.tsQuery = some tv → tv ≠ [] →
      parseTop (b64decode tv) = some v → v ≠ .jnull →
      tsExpiredCheck now v = false →
      authAndRateLimiterMiddleware secret r m now
        = (authStage secret r, m')) := by
  refine ⟨?_, ?_, ?_, ?_⟩
  · intro h
    rw [gate_rate_pass secret r m m' now hrate]
    unfold tsAuthStage
    rw [tsCheck_missing r now h]
  · intro tv hjs hne hp
    rw [gate_rate_pass secret r m m' now hrate]
    unfold tsAuthStage
    rw [tsCheck_badparse r now tv hjs hne hp]
  · intro tv v hjs hne hp hv hold
    rw [gate_rate_pass secret r m m' now hrate]
    unfold tsAuthStage
    rw [tsCheck_expired r now tv v hjs hne hp hv hold]
  · intro tv v hjs hne hp hv hfresh
    rw [gate_rate_pass secret r m m' now hrate]
    unfold tsAuthStage
    rw [tsCheck_pass r now tv v hjs hne hp hv hfresh]

/-- Witness for C4 (amended): a ts token with `generatedAt = 1` presented
at time 100000 is denied 401 as expired. -/
theorem ts_token_gate_behavior_witness :
    authAndRateLimiterMiddleware [] cReqTsGen [] 100000
      = (.deny 401 "Expired TS token. Please refresh or re-login.",
         [([9], { firstRequestTime := 100000, requestCount := 1,
                  blockUntil := 0 })]) :=
  (ts_token_gate_behavior [] cReqTsGen [] _ 100000 (by decide)).2.2.1 tsGen1
    (.jobj [(ascii "generatedAt", .jnum (.fin 1 0))]) (by rfl) (by decide)
    (by rfl) (fun h => nomatch h) (by rfl)

/-- Counterexample to C4 as stated: the ts value "e30=" decodes to the
JSON object without a `generatedAt` field — i.e. it is not decodable as
the shape required by the claim — yet the gate does not deny with 400: the
request is passed through to the handler. -/
theorem ts_shape_cex :
    parseTop (b64decode tsEmptyObj) = some (.jobj [])
    ∧ authAndRateLimiterMiddleware [] cReqPublicOk [] 100
        = (.allow none none,
           [([9], { firstRequestTime := 100, requestCount := 1,
                    blockUntil := 0 })]) := by
  exact ⟨by rfl, by decide⟩

/-- Fidelity of the `JSON.parse` and coercion model on the shapes beyond
the original claim's: arrays, exponents, fractions, nested objects,
string escapes and leading-zero rejection parse as in JS, and the
coercion cases (`null` → 0, numeric string, array) decide the 20-second
test as in JS. -/
theorem parse_and_coercion_examples :
    parseTop (ascii "[1]") = some (.jarr [.jnum (.fin 1 0)])
    ∧ parseTop (ascii "1e3") = some (.jnum (.fin 1 3))
    ∧ parseTop (ascii "0.5") = some (.jnum (.fin 5 (-1)))
    ∧ parseTop (ascii "2e308") = some (.jnum .posInf)
    ∧ parseTop (ascii "01") = none
    ∧ parseTop (ascii "\x7b\"a\":\x7b\"b\":[true,null]\x7d\x7d")
        = some (.jobj [(ascii "a",
            .jobj [(ascii "b", .jarr [.jbool true, .jnull])])])
    ∧ parseTop (ascii "\"a\\nb\"") = some (.jstr [97, 10, 98])
    ∧ tsExpiredCheck 100000 (.jobj [(ascii "generatedAt", .jnull)]) = true
    ∧ tsExpiredCheck 100000
        (.jobj [(ascii "generatedAt", .jstr (ascii "1"))]) = true
    ∧ tsExpiredCheck 100000
        (.jobj [(ascii "generatedAt", .jnum (.fin 15 (-1)))]) = true
    ∧ tsExpiredCheck 100000
        (.jobj [(ascii "generatedAt", .jarr [.jnum (.fin 1 0)])]) = true
    ∧ tsExpiredCheck 100000 (.jarr [.jnum (.fin 1 0)]) = false
    ∧ tsExpiredCheck 100000
        (.jobj [(ascii "generatedAt", .jbool true)]) = true
    ∧ tsExpiredCheck 100000
        (.jobj [(ascii "generatedAt", .jobj [])]) = false := by
  exact ⟨rfl, rfl, rfl, rfl, rfl, rfl, rfl, rfl, rfl, rfl, rfl, rfl, rfl,
    rfl⟩

/-- C5 (amended).  Public-marker bypass: once the throttle and the ts
check pass, any request whose `authentication` header equals "public"
case-insensitively — and whose `login` header is not "false" — is passed
straight to the downstream handler with no user attached, for every url
(including the protected ones) and regardless of the `authorization`,
`x-session-token` and `x-user-id` headers: credential extraction, token
verification and the registry lookups are skipped. -/
theorem public_marker_bypass (secret : List Nat) (r : GateRequest)
    (m m' : RateMap) (now : Int)
    (hrate : rateLimitStep m r.ip now = (none, m'))
    (hts : tsCheckStep r now = none)
    (hpub : truthyLower r.authenticationHeader "public" = true)
    (hlogin : truthyLower r.loginHeader "false" = false) :
    authAndRateLimiterMiddleware secret r m now = (.allow none none, m') := by
  rw [gate_rate_pass secret r m m' now hrate]
  unfold tsAuthStage
  rw [hts]
  unfold authStage
  simp [hpub, hlogin]

/-- Witness for C5 (amended): a request on the protected
"/api/wallpapers" with `authentication: PuBlIc`, a garbage authorization
header and no session token is passed through. -/
theorem public_marker_bypass_witness :
    authAndRateLimiterMiddleware [] cReqPublicMarker [] 100
      = (.allow none none,
         [([9], { firstRequestTime := 100, requestCount := 1,
                  blockUntil := 0 })]) :=
  public_marker_bypass [] cReqPublicMarker [] _ 100 (by decide) (by decide)
    (by decide) (by decide)

/-- Counterexample to C5 as stated: a request on a protected route whose
`authentication` header equals "public" but whose `login` header is
"false" is *not* passed to the downstream handler — the gate denies it
with 401 "Authentication required". -/
theorem public_marker_cex :
    truthyLower cReqPublicLoginFalse.authenticationHeader "public" = true
    ∧ isProtectedRoute cReqPublicLoginFalse.url = true
    ∧ authAndRateLimiterMiddleware [] cReqPublicLoginFalse [] 100
        = (.deny 401 "Authentication required",
           [([9], { firstRequestTime := 100, requestCount := 1,
                    blockUntil := 0 })]) := by
  exact ⟨by decide, by decide, by decide⟩

/-- C9.  Fail-closed on short tokens: extraction of a token of length at
most 36 yields the "Invalid token length" error for every secret, and a
request on a protected route presenting such a Bearer token (with a
session token supplied and no public/login-false marker) is denied 401
"Invalid auth token" by the gate. -/
theorem short_token_fails_closed :
    (∀ secret t : List Nat, t.length ≤ 36 →
        extractUserIdFromAuthToken secret t
          = .error "Invalid token length")
  ∧ (∀ (secret : List Nat) (r : GateRequest) (m m' : RateMap) (now : Int)
        (t : List Nat),
        rateLimitStep m r.ip now = (none, m') →
        tsCheckStep r now = none →
        isProtectedRoute r.url = true →
        truthyLower r.loginHeader "false" = false →
        truthyLower r.authenticationHeader "public" = false →
        r.authorizationHeader = some (ascii "Bearer " ++ t) →
        truthy r.xSessionToken = true →
        t.length ≤ 36 →
        authAndRateLimiterMiddleware secret r m now
          = (.deny 401 "Invalid auth token", m')) := by
  have hext : ∀ secret t : List Nat, t.length ≤ 36 →
      extractUserIdFromAuthToken secret t = .error "Invalid token length" := by
    intro secret t ht
    unfold extractUserIdFromAuthToken
    rw [if_pos (by omega)]
  refine ⟨hext, ?_⟩
  intro secret r m m' now t hrate hts hprot hlf hpub hauth hsess hshort
  rw [gate_rate_pass secret r m m' now hrate]
  unfold tsAuthStage
  rw [hts]
  unfold authStage
  rw [hauth]
  have hdrop : (ascii "Bearer " ++ t).drop 7 = t := List.drop_left' (by rfl)
  simp [hprot, hlf, hpub, isPrefixOf_append_self, hdrop, hsess,
    hext secret t hshort]

/-- Witness for C9: the gate denies a request carrying the three-character
Bearer token "abc". -/
theorem short_token_fails_closed_witness :
    authAndRateLimiterMiddleware cSecret cReqShortTok [] 100
      = (.deny 401 "Invalid auth token",
         [([9], { firstRequestTime := 100, requestCount := 1,
                  blockUntil := 0 })]) :=
  short_token_fails_closed.2 cSecret cReqShortTok [] _ 100 (ascii "abc")
    (by decide) (by decide) (by decide) (by decide) (by decide) (by decide)
    (by decide) (by decide)

theorem mapGet_mapSet_same (m : RateMap) (ip : List Nat) (d : RateData) :
    mapGet (mapSet m ip d) ip = some d := by
  simp [mapGet, mapSet, List.find?]

theorem throttleStep_fresh (m : RateMap) (table : List BlockedRow)
    (ip route : List Nat) (now : Int)
    (hget : mapGet m ip = none) (hnow : 0 ≤ now) :
    throttleStep m table ip route now
      = (none, mapSet m ip
          { firstRequestTime := now, requestCount := 1, blockUntil := 0 },
         table) := by
  unfold throttleStep
  rw [hget]
  dsimp only [Option.getD]
  rw [if_neg (by omega), if_neg (by omega), if_neg (by omega)]

theorem throttleStep_count (m : RateMap) (table : List BlockedRow)
    (ip route : List Nat) (now t1 b : Int) (n : Nat)
    (hget : mapGet m ip
      = some { firstRequestTime := t1, requestCount := n, blockUntil := b })
    (hb : b ≤ now) (hw : now - t1 ≤ 15000) (hn : n + 1 ≤ 50) :
    throttleStep m table ip route now
      = (none, mapSet m ip
          { firstRequestTime := t1, requestCount := n + 1, blockUntil := b },
         table) := by
  unfold throttleStep
  rw [hget]
  dsimp only [Option.getD]
  rw [if_neg (by omega), if_neg (by omega), if_neg (by omega)]

theorem throttleStep_deny (m : RateMap) (table : List BlockedRow)
    (ip route : List Nat) (now t1 b : Int)
    (hget : mapGet m ip
      = some { firstRequestTime := t1, requestCount := 50, blockUntil := b })
    (hb : b ≤ now) (hw : now - t1 ≤ 15000) :
    throttleStep m table ip route now
      = (some (429, "Too many requests. Your IP is temporarily blocked."),
         mapSet m ip
           { firstRequestTime := t1, requestCount := 51,
             blockUntil := now + 300000 * blockMultiplier table ip now },
         { ip := ip, request_count := blockMultiplier table ip now,
           block_start := now,
           block_end := now + 300000 * blockMultiplier table ip now,
           route := route } :: table) := by
  unfold throttleStep
  rw [hget]
  dsimp only [Option.getD]
  rw [if_neg (by omega), if_neg (by omega), if_pos (by omega)]
  rfl

theorem runThrottleSeq_window (ip route : List Nat) :
    ∀ (times : List Int) (m : RateMap) (table : List BlockedRow)
      (t1 b : Int) (n : Nat),
      mapGet m ip
        = some { firstRequestTime := t1, requestCount := n, blockUntil := b } →
      n + times.length ≤ 50 →
      (∀ s ∈ times, b ≤ s ∧ s - t1 ≤ 15000) →
      ∃ m', runThrottleSeq ip route times m table
          = (List.replicate times.length none, m', table)
        ∧ mapGet m' ip
            = some { firstRequestTime := t1, requestCount := n + times.length,
                     blockUntil := b }
  | [], m, table, t1, b, n, hget, _, _ => by
    refine ⟨m, by simp [runThrottleSeq], ?_⟩
    simpa using hget
  | t :: rest, m, table, t1, b, n, hget, hlim, hwin => by
    have hstep := throttleStep_count m table ip route t t1 b n hget
      (hwin t (by simp)).1 (hwin t (by simp)).2 (by simp at hlim; omega)
    obtain ⟨m', hrun, hm'⟩ := runThrottleSeq_window ip route rest
      (mapSet m ip
        { firstRequestTime := t1, requestCount := n + 1, blockUntil := b })
      table t1 b (n + 1) (mapGet_mapSet_same _ _ _)
      (by simp at hlim; omega)
      (fun s hs => hwin s (by simp [hs]))
    refine ⟨m', ?_, by simpa [Nat.add_assoc, Nat.add_comm 1 rest.length] using hm'⟩
    simp only [runThrottleSeq, hstep, hrun, List.length_cons,
      List.replicate_succ]

theorem runThrottleSeq_append (ip route : List Nat) :
    ∀ (xs ys : List Int) (m : RateMap) (table : List BlockedRow),
      runThrottleSeq ip route (xs ++ ys) m table
        = ((runThrottleSeq ip route xs m table).1
            ++ (runThrottleSeq ip route ys
                 (runThrottleSeq ip route xs m table).2.1
                 (runThrottleSeq ip route xs m table).2.2).1,
           (runThrottleSeq ip route ys
             (runThrottleSeq ip route xs m table).2.1
             (runThrottleSeq ip route xs m table).2.2).2)
  | [], ys, m, table => by simp [runThrottleSeq]
  | x :: xs, ys, m, table => by
    have ih := runThrottleSeq_append ip route xs ys
      (throttleStep m table ip route x).2.1
      (throttleStep m table ip route x).2.2
    have hcons : ∀ zs : List Int, runThrottleSeq ip route (x :: zs) m table
        = ((throttleStep m table ip route x).1
            :: (runThrottleSeq ip route zs (throttleStep m table ip route x).2.1
                 (throttleStep m table ip route x).2.2).1,
           (runThrottleSeq ip route zs (throttleStep m table ip route x).2.1
             (throttleStep m table ip route x).2.2).2) := fun zs => rfl
    rw [List.cons_append, hcons (xs ++ ys), hcons xs, ih]
    simp

theorem throttleStep_blocked (m : RateMap) (table : List BlockedRow)
    (ip route : List Nat) (now t1 b : Int) (n : Nat)
    (hget : mapGet m ip
      = some { firstRequestTime := t1, requestCount := n, blockUntil := b })
    (hblock : now < b) :
    throttleStep m table ip route now
      = (some (429, "Too many requests. Your IP is temporarily blocked."),
         m, table) := by
  unfold throttleStep
  rw [hget]
  dsimp only [Option.getD]
  rw [if_pos (by omega)]

theorem throttleStep_reset (m : RateMap) (table : List BlockedRow)
    (ip route : List Nat) (now t1 b : Int) (n : Nat)
    (hget : mapGet m ip
      = some { firstRequestTime := t1, requestCount := n, blockUntil := b })
    (hpast : b ≤ now) (hout : now - t1 > 15000) :
    throttleStep m table ip route now
      = (none, mapSet m ip
          { firstRequestTime := now, requestCount := 1, blockUntil := b },
         table) := by
  unfold throttleStep
  rw [hget]
  dsimp only [Option.getD]
  rw [if_neg (by omega), if_pos (by omega)]

theorem recordBlockedIp_growth (table : List BlockedRow)
    (ip route : List Nat) (bs now : Int) (lastRow : BlockedRow)
    (hfind : latestBlockRow table ip = some lastRow)
    (hactive : now < lastRow.block_end) :
    recordBlockedIp table ip route bs now
      = (bs + 300000 * (lastRow.request_count + 1),
         { ip := ip, request_count := lastRow.request_count + 1,
           block_start := bs,
           block_end := bs + 300000 * (lastRow.request_count + 1),
           route := route } :: table) := by
  unfold recordBlockedIp blockMultiplier
  rw [hfind]
  dsimp only
  rw [if_pos hactive]
  push_cast
  rfl

/-- C6.  Throttle behaviour, in four parts.
(i) 51 requests from a fresh IP within one 15-second counting window: the
first 50 pass, the 51st is denied 429, a `blocked_ips` row is inserted,
and the block lasts `5 min × multiplier` from the 51st arrival.
(ii) The multiplier grows with repeated violations: while the latest
recorded block for the IP is still in force, `recordBlockedIp` uses the
previous `request_count + 1` as the multiplier and persists it.
(iii) While `now < blockUntil`, every request from that IP is denied 429
and neither the counter map nor the table is touched.
(iv) Once the block has elapsed and a request starts a fresh counting
window, the throttle lets it through with a reset counter. -/
theorem throttle_behavior :
    (∀ (ip route : List Nat) (m : RateMap) (table : List BlockedRow)
        (t1 tL : Int) (mid : List Int),
        mapGet m ip = none → 0 ≤ t1 → mid.length = 49 →
        (∀ s ∈ mid, 0 ≤ s ∧ s - t1 ≤ 15000) →
        0 ≤ tL → tL - t1 ≤ 15000 →
        ∃ m', runThrottleSeq ip route (t1 :: mid ++ [tL]) m table
            = (List.replicate 50 none
                ++ [some (429,
                     "Too many requests. Your IP is temporarily blocked.")],
               m',
               { ip := ip, request_count := blockMultiplier table ip tL,
                 block_start := tL,
                 block_end := tL + 300000 * blockMultiplier table ip tL,
                 route := route } :: table)
          ∧ mapGet m' ip
              = some { firstRequestTime := t1, requestCount := 51,
                       blockUntil := tL + 300000 * blockMultiplier table ip tL })
  ∧ (∀ (table : List BlockedRow) (ip route : List Nat) (bs now : Int)
        (lastRow : BlockedRow),
        latestBlockRow table ip = some lastRow → now < lastRow.block_end →
        recordBlockedIp table ip route bs now
          = (bs + 300000 * (lastRow.request_count + 1),
             { ip := ip, request_count := lastRow.request_count + 1,
               block_start := bs,
               block_end := bs + 300000 * (lastRow.request_count + 1),
               route := route } :: table))
  ∧ (∀ (m : RateMap) (table : List BlockedRow) (ip route : List Nat)
        (now t1 b : Int) (n : Nat),
        mapGet m ip
          = some { firstRequestTime := t1, requestCount := n, blockUntil := b } →
        now < b →
        throttleStep m table ip route now
          = (some (429, "Too many requests. Your IP is temporarily blocked."),
             m, table))
  ∧ (∀ (m : RateMap) (table : List BlockedRow) (ip route : List Nat)
        (now t1 b : Int) (n : Nat),
        mapGet m ip
          = some { firstRequestTime := t1, requestCount := n, blockUntil := b } →
        b ≤ now → now - t1 > 15000 →
        throttleStep m table ip route now
          = (none, mapSet m ip
              { firstRequestTime := now, requestCount := 1, blockUntil := b },
             table)) := by
  refine ⟨?_, ?_, ?_, ?_⟩
  · intro ip route m table t1 tL mid hfresh ht1 hmidlen hwin htL htLw
    have h1 := throttleStep_fresh m table ip route t1 hfresh ht1
    obtain ⟨m₁, hmid, hm₁⟩ := runThrottleSeq_window ip route mid
      (mapSet m ip { firstRequestTime := t1, requestCount := 1, blockUntil := 0 })
      table t1 0 1 (mapGet_mapSet_same _ _ _) (by omega)
      (fun s hs => ⟨(hwin s hs).1, (hwin s hs).2⟩)
    rw [hmidlen] at hm₁ hmid
    have hm₁' : mapGet m₁ ip
        = some { firstRequestTime := t1, requestCount := 50, blockUntil := 0 } := by
      rw [hm₁]
    have hdeny := throttleStep_deny m₁ table ip route tL t1 0 hm₁'
      (by omega) (by omega)
    have hlast : runThrottleSeq ip route [tL] m₁ table
        = ([some (429, "Too many requests. Your IP is temporarily blocked.")],
           mapSet m₁ ip
             { firstRequestTime := t1, requestCount := 51,
               blockUntil := tL + 300000 * blockMultiplier table ip tL },
           { ip := ip, request_count := blockMultiplier table ip tL,
             block_start := tL,
             block_end := tL + 300000 * blockMultiplier table ip tL,
             route := route } :: table) := by
      simp only [runThrottleSeq, hdeny]
    have hrep : List.replicate 50 (none : Option (Nat × String))
        = none :: List.replicate 49 none := rfl
    have hfirst : runThrottleSeq ip route (t1 :: mid) m table
        = (List.replicate 50 none, m₁, table) := by
      have hc0 : runThrottleSeq ip route (t1 :: mid) m table
          = ((throttleStep m table ip route t1).1
              :: (runThrottleSeq ip route mid
                   (throttleStep m table ip route t1).2.1
                   (throttleStep m table ip route t1).2.2).1,
             (runThrottleSeq ip route mid
               (throttleStep m table ip route t1).2.1
               (throttleStep m table ip route t1).2.2).2) := rfl
      rw [hc0, h1]
      simp only [hmid, hrep]
    have happ := runThrottleSeq_append ip route (t1 :: mid) [tL] m table
    rw [hfirst] at happ
    simp only [hlast] at happ
    exact ⟨mapSet m₁ ip
      { firstRequestTime := t1, requestCount := 51,
        blockUntil := tL + 300000 * blockMultiplier table ip tL },
      happ, mapGet_mapSet_same _ _ _⟩
  · intro table ip route bs now lastRow hfind hactive
    exact recordBlockedIp_growth table ip route bs now lastRow hfind hactive
  · intro m table ip route now t1 b n hget hblock
    exact throttleStep_blocked m table ip route now t1 b n hget hblock
  · intro m table ip route now t1 b n hget hpast hout
    exact throttleStep_reset m table ip route now t1 b n hget hpast hout

/-- Witness for C6 at part (iii): a blocked IP (block until 1000) sending
a request at time 500 is denied 429 with the map and table untouched. -/
theorem throttle_behavior_witness :
    throttleStep [([1], { firstRequestTime := 0, requestCount := 3,
                          blockUntil := 1000 })] [] [1] [] 500
      = (some (429, "Too many requests. Your IP is temporarily blocked."),
         [([1], { firstRequestTime := 0, requestCount := 3,
                  blockUntil := 1000 })], []) :=
  throttle_behavior.2.2.1
    [([1], { firstRequestTime := 0, requestCount := 3, blockUntil := 1000 })]
    [] [1] [] 500 0 1000 3 (by decide) (by decide)

/-- Witness for C10: swapping both filler affixes of a token around the
payload "QQ==" leaves the extraction result unchanged. -/
theorem extract_affix_noninterference_witness :
    extractUserIdFromAuthToken cSecret
        (List.replicate 20 48 ++ ascii "QQ==" ++ List.replicate 16 48)
      = extractUserIdFromAuthToken cSecret
        (List.replicate 20 97 ++ ascii "QQ==" ++ List.replicate 16 97) :=
  extract_affix_noninterference cSecret (ascii "QQ==") _ _ _ _ (by decide)
    (by decide) (by decide) (by decide)
